import Mathlib

/-!
Shallow embedding of `python-draftin` (src/draftin.py), a client for the
draftin.com REST API, together with theorems checking the claims of the
specification against the code.

Modelling conventions:
* JSON-decoded Python values are the inductive `Json` (ints for numbers).
* The network is a pure oracle `server : HttpRequest → HttpResponse`;
  every operation returns its result together with the list of HTTP
  requests it issued, in order.
* Python exceptions are `Except PyErr _`; `PyErr.api` is the library's
  `DraftApiException`, `PyErr.other` any other Python exception
  (`AttributeError`, `TypeError`, JSON `ValueError`, ...).
* The external libraries used by the code (`requests`, `json`,
  `dateutil.parser.parse`, `urljoin`) are modelled faithfully for the
  inputs the client can produce; restrictions are noted at each model.
-/

/-- JSON-decoded Python value (`resp.json()` results, request payloads). -/
inductive Json where
  | null : Json
  | bool : Bool → Json
  | num : Int → Json
  | str : String → Json
  | arr : List Json → Json
  | obj : List (String × Json) → Json
deriving Repr

/-- Python truthiness (`if x:`) of a JSON-decoded value: `None`, `False`,
`0`, `''`, `[]`, `{}` are falsy, everything else truthy. -/
def pyTruthy : Json → Bool
  | Json.null => false
  | Json.bool b => b
  | Json.num n => n != 0
  | Json.str s => s != ""
  | Json.arr xs => !xs.isEmpty
  | Json.obj fs => !fs.isEmpty

/-- Truthiness of an optional value (absent behaves like `None`). -/
def pyTruthyOpt : Option Json → Bool
  | none => false
  | some v => pyTruthy v

/-- First-match lookup in a JSON object's field list (Python `dict` access;
a real `dict` has no duplicate keys, the first match models it). -/
def pyLookup : List (String × Json) → String → Option Json
  | [], _ => none
  | (k, v) :: rest, name => if k = name then some v else pyLookup rest name

/-- `s.startswith(pre)` on character lists. -/
def charsStartWith : List Char → List Char → Bool
  | _, [] => true
  | [], _ :: _ => false
  | a :: as, b :: bs => a == b && charsStartWith as bs

/-- Python `str.startswith`: does `s` start with `pre`? -/
def strStartsWith (s pre : String) : Bool :=
  charsStartWith s.data pre.data

/-- ASCII lower-casing of one character (model of `str.lower` per char;
the method names the client lowercases are ASCII). -/
def charLower (c : Char) : Char :=
  if 65 ≤ c.toNat ∧ c.toNat ≤ 90 then Char.ofNat (c.toNat + 32) else c

/-- Python `str.lower` (ASCII). -/
def strToLower (s : String) : String :=
  String.mk (s.data.map charLower)

/-- Split a character list at the first `://`, returning the part up to and
including the separator and the rest. -/
def splitSchemeSep : List Char → Option (List Char × List Char)
  | [] => none
  | ':' :: '/' :: '/' :: rest => some ([':', '/', '/'], rest)
  | c :: rest =>
    match splitSchemeSep rest with
    | some (pre, post) => some (c :: pre, post)
    | none => none

/-- Scheme plus authority of an absolute URL (`https://host`), i.e.
everything up to, and not including, the first `/` after `://`. -/
def schemeAuthority (s : List Char) : List Char :=
  match splitSchemeSep s with
  | some (pre, post) => pre ++ post.takeWhile (fun c => c != '/')
  | none => []

/-- Everything up to and including the last `/` of the string. -/
def dirPart (s : List Char) : List Char :=
  (s.reverse.dropWhile (fun c => c != '/')).reverse

/-- Model of `urllib.parse.urljoin` restricted to the shapes the client
produces: an absolute `http(s)` base URL without query or fragment, joined
with either a relative path (`documents/7.json`) or an absolute-path
reference (`/documents/7.json`). An absolute-path reference replaces the
whole path of the base — this is what RFC 3986 merge and Python's
`urljoin` do. -/
def urljoin (base url : String) : String :=
  match url.data with
  | [] => base
  | '/' :: _ => String.mk (schemeAuthority base.data ++ url.data)
  | _ => String.mk (dirPart base.data ++ url.data)

/-- `DRAFT_API_URL` (src/draftin.py line 26). -/
def DRAFT_API_URL : String := "https://draftin.com/api/v1/"

/-- An HTTP request as issued through the `requests` library: method name
(already lower-cased by the caller in this client), full URL, basic-auth
credentials, the `Content-Type` header when one is set, and the raw body
passed as `data=`. -/
structure HttpRequest where
  method : String
  url : String
  auth : String × String
  contentTypeHeader : Option String
  body : Option String
deriving Repr, DecidableEq

/-- A `requests` response: status code, the `Content-Type` header if any,
the body text, and `json` — the outcome of parsing the body as JSON, which
is what `resp.json()` returns (or the parse error it raises). -/
structure HttpResponse where
  status_code : Nat
  contentType : Option String
  text : String
  json : Except Unit Json
deriving Repr

/-- Is the declared content type JSON?
Models `resp.headers.get('Content-Type', '').startswith('application/json')`
(src/draftin.py lines 38 and 87). -/
def ctIsJson (resp : HttpResponse) : Bool :=
  strStartsWith (Option.getD resp.contentType "") "application/json"

/-- `DraftApiException` (src/draftin.py lines 28-46): carries the raw
response, the HTTP status code, and the extracted message. The message is
kept as a `Json` value because `resp.json().get('error', ...)` can hand any
JSON value to `Exception.__init__`; plain strings are wrapped in
`Json.str`. -/
structure DraftApiException where
  response : HttpResponse
  code : Nat
  msg : Json
deriving Repr

/-- A Python exception: either the library's `DraftApiException` or any
other exception (`AttributeError`, `TypeError`, JSON decode errors, ...). -/
inductive PyErr where
  | api : DraftApiException → PyErr
  | other : String → PyErr
deriving Repr

/-- `DraftApiException.__init__` (src/draftin.py lines 35-46): if the
content type is JSON, try `resp.json().get('error', default)` — the bare
`except:` catches both a JSON parse failure and the `AttributeError` of
`.get` on a non-dict value, falling back to `resp.text`; otherwise a
generic message tagged with the status code. -/
def DraftApiException.ofResp (resp : HttpResponse) : DraftApiException :=
  let msg : Json :=
    if ctIsJson resp then
      match resp.json with
      | Except.ok (Json.obj fs) =>
        match pyLookup fs "error" with
        | some v => v
        | none => Json.str "Unknown error invoking the Draft API"
      | Except.ok _ => Json.str resp.text
      | Except.error _ => Json.str resp.text
    else
      Json.str ("Unknown error invoking the Draft API (" ++
        toString resp.status_code ++ ")")
  { response := resp, code := resp.status_code, msg := msg }

/-- `DraftApi` (src/draftin.py lines 48-60): fixed base URL and the
credential pair given at construction. -/
structure DraftApi where
  _url : String
  _user : String
  _password : String
deriving Repr, DecidableEq

/-- `DraftApi.__init__` (src/draftin.py lines 51-60). -/
def DraftApi.init (user password : String) : DraftApi :=
  { _url := DRAFT_API_URL, _user := user, _password := password }

/-- `DraftApi._check_response` (src/draftin.py lines 62-66): raise
`DraftApiException` when the status code is outside 200-299. -/
def DraftApi.check_response (resp : HttpResponse) : Except PyErr Unit :=
  if resp.status_code < 200 || resp.status_code > 299 then
    Except.error (PyErr.api (DraftApiException.ofResp resp))
  else
    Except.ok ()

/-- The module-level functions of the `requests` library reachable by
`getattr(requests, typ)` with a lower-cased single-method name
(src/draftin.py line 77); an unknown name raises `AttributeError`. -/
def requestsHasMethod (typ : String) : Bool :=
  typ == "get" || typ == "head" || typ == "options" || typ == "post" ||
    typ == "put" || typ == "patch" || typ == "delete"

/-- The request record `DraftApi.request` hands to the `requests` library
(src/draftin.py lines 76-84): URL resolved with `urljoin`, basic auth from
the held credentials, and a JSON `Content-Type` header exactly for POST and
PUT. `typ` is the already lower-cased method name. -/
def DraftApi.buildRequest (api : DraftApi) (typ path : String)
    (data : Option String) : HttpRequest :=
  { method := typ,
    url := urljoin api._url path,
    auth := (api._user, api._password),
    contentTypeHeader :=
      if typ == "post" || typ == "put" then some "application/json" else none,
    body := data }

/-- Response handling of `DraftApi.request` (src/draftin.py lines 85-93):
check the status, then decode — `None` for 204 or a non-JSON content type,
`None` for the literal one-space body quirk, otherwise `resp.json()`. -/
def DraftApi.decodeResponse (resp : HttpResponse) : Except PyErr (Option Json) :=
  match DraftApi.check_response resp with
  | Except.error e => Except.error e
  | Except.ok _ =>
    if resp.status_code == 204 || !ctIsJson resp then
      Except.ok none
    else if resp.text == " " then
      Except.ok none
    else
      match resp.json with
      | Except.ok j => Except.ok (some j)
      | Except.error _ => Except.error (PyErr.other "ValueError: invalid JSON body")

/-- `DraftApi.request` (src/draftin.py lines 68-93): lower-case the method,
resolve the URL, dispatch through `getattr(requests, typ)` (an unknown
method raises `AttributeError` before any request is made), then issue the
one request and handle its response with `decodeResponse`. -/
def DraftApi.request (api : DraftApi) (server : HttpRequest → HttpResponse)
    (typ path : String) (data : Option String) :
    Except PyErr (Option Json) × List HttpRequest :=
  let typl := strToLower typ
  if requestsHasMethod typl then
    let req := DraftApi.buildRequest api typl path data
    (DraftApi.decodeResponse (server req), [req])
  else
    (Except.error (PyErr.other "AttributeError: no such requests method"), [])

/-- Minimal JSON string escaping as `json.dumps` performs it for the
payloads this client serializes (backslash and double quote; the client
passes user text through unchanged otherwise). -/
def jsonEscapeChar (c : Char) : List Char :=
  if c = '"' then ['\\', '"']
  else if c = '\\' then ['\\', '\\']
  else [c]

/-- `json.dumps` of a string value. -/
def jsonDumpStr (s : String) : String :=
  "\"" ++ String.mk (s.data.flatMap jsonEscapeChar) ++ "\""

mutual

/-- Model of `json.dumps` with its default separators (`', '` and `': '`),
preserving insertion order of the (ordered) Python dict. -/
def Json.dumps : Json → String
  | Json.null => "null"
  | Json.bool true => "true"
  | Json.bool false => "false"
  | Json.num n => toString n
  | Json.str s => jsonDumpStr s
  | Json.arr xs => "[" ++ Json.dumpsList xs ++ "]"
  | Json.obj fs => "\x7b" ++ Json.dumpsFields fs ++ "\x7d"

/-- Comma-separated serialization of array elements. -/
def Json.dumpsList : List Json → String
  | [] => ""
  | [x] => Json.dumps x
  | x :: y :: rest => Json.dumps x ++ ", " ++ Json.dumpsList (y :: rest)

/-- Comma-separated serialization of object fields. -/
def Json.dumpsFields : List (String × Json) → String
  | [] => ""
  | [(k, v)] => jsonDumpStr k ++ ": " ++ Json.dumps v
  | (k, v) :: f :: rest =>
    jsonDumpStr k ++ ": " ++ Json.dumps v ++ ", " ++
      Json.dumpsFields (f :: rest)

end

/-- Python `'%s' % v` of a JSON-decoded value: identity on strings,
decimal for ints, Python literals for the other scalars. Containers are
approximated by their JSON serialization (the client only ever formats the
scalar `id` field this way). -/
def pyStr : Json → String
  | Json.str s => s
  | Json.num n => toString n
  | Json.bool true => "True"
  | Json.bool false => "False"
  | Json.null => "None"
  | Json.arr xs => Json.dumps (Json.arr xs)
  | Json.obj fs => Json.dumps (Json.obj fs)

/-- Abstract structured date-time value: the result of
`dateutil.parser.parse` on an ISO-8601 string, modelled as an opaque-but-
computable wrapper of the input (the external parser is injective on the
timestamps the service emits; its internal calendar arithmetic is not this
repository's code). -/
structure ParsedDate where
  raw : String
deriving Repr, DecidableEq

/-- Model of `dateutil.parser.parse` (src/draftin.py line 17). -/
def dateparse (s : String) : ParsedDate :=
  { raw := s }

/-- Python iteration `for x in v` over a JSON-decoded value: a list yields
its elements, a dict its keys, a string its characters; `None` and the
other scalars raise `TypeError`. -/
def pyIter : Option Json → Except PyErr (List Json)
  | some (Json.arr xs) => Except.ok xs
  | some (Json.obj fs) => Except.ok (fs.map (fun kv => Json.str kv.1))
  | some (Json.str s) => Except.ok (s.data.map (fun c => Json.str (String.mk [c])))
  | _ => Except.error (PyErr.other "TypeError: not iterable")

/-- `BaseDraftObj` (src/draftin.py lines 121-151): a transport reference
plus the optional backing data from the most recent successful response.
`DraftDocument` and `DraftSavePoint` add no fields of their own, so both
are represented by this one structure; their operations live in their own
namespaces below. -/
structure BaseDraftObj where
  api : DraftApi
  _data : Option Json
deriving Repr

/-- `BaseDraftObj.__getattr__` wrapped in `getattr(self, name, None)`
(src/draftin.py lines 130-136): look the name up in the backing data when
the data is present and truthy; otherwise the `AttributeError` is caught
by the `getattr` default and yields `None`. A non-dict backing value
behaves as "not found" here (for the values the service returns, `name in
data` is false on non-dicts). -/
def BaseDraftObj.getattrOpt (o : BaseDraftObj) (name : String) : Option Json :=
  match o._data with
  | some d =>
    if pyTruthy d then
      match d with
      | Json.obj fs => pyLookup fs name
      | _ => none
    else none
  | none => none

/-- `BaseDraftObj.objid` (src/draftin.py lines 138-144):
`getattr(self, 'id', None)`. -/
def BaseDraftObj.objid (o : BaseDraftObj) : Option Json :=
  BaseDraftObj.getattrOpt o "id"

/-- `BaseDraftObj.set_data` (src/draftin.py lines 149-151). -/
def BaseDraftObj.set_data (o : BaseDraftObj) (data : Option Json) : BaseDraftObj :=
  { o with _data := data }

/-- `BaseDraftObj.updated` (src/draftin.py lines 153-159): NOTE — the
source reads the `created_at` field here. A falsy value (absent field,
empty string) yields `None`; a truthy non-string would make `dateparse`
raise `TypeError`. -/
def BaseDraftObj.updated (o : BaseDraftObj) : Except PyErr (Option ParsedDate) :=
  match BaseDraftObj.getattrOpt o "created_at" with
  | some v =>
    if pyTruthy v then
      match v with
      | Json.str s => Except.ok (some (dateparse s))
      | _ => Except.error (PyErr.other "TypeError: dateparse on non-string")
    else Except.ok none
  | none => Except.ok none

/-- `BaseDraftObj.created` (src/draftin.py lines 161-167): NOTE — the
source reads the `updated_at` field here. -/
def BaseDraftObj.created (o : BaseDraftObj) : Except PyErr (Option ParsedDate) :=
  match BaseDraftObj.getattrOpt o "updated_at" with
  | some v =>
    if pyTruthy v then
      match v with
      | Json.str s => Except.ok (some (dateparse s))
      | _ => Except.error (PyErr.other "TypeError: dateparse on non-string")
    else Except.ok none
  | none => Except.ok none

/-- The request-body dict `{'content': content}` plus `'name'` exactly when
`name` is truthy (a present, non-empty string), in insertion order. This
three-line construction appears verbatim twice in the source
(src/draftin.py lines 215-217 and 228-230). -/
def mkDocArgs (content : String) (name : Option String) : List (String × Json) :=
  match name with
  | some s =>
    if s = "" then [("content", Json.str content)]
    else [("content", Json.str content), ("name", Json.str s)]
  | none => [("content", Json.str content)]

/-- `DraftDocument._get_document` (src/draftin.py lines 196-201):
`GET '/documents/%s.json' % docid` — note the leading slash in the source
path, which `urljoin` resolves as an absolute-path reference. -/
def DraftDocument._get_document (server : HttpRequest → HttpResponse)
    (api : DraftApi) (docid : Json) :
    Except PyErr (Option Json) × List HttpRequest :=
  DraftApi.request api server "get" ("/documents/" ++ pyStr docid ++ ".json") none

/-- `DraftDocument.from_id` (src/draftin.py lines 187-194): fetch the data
and wrap it in a fresh `DraftDocument`. -/
def DraftDocument.from_id (server : HttpRequest → HttpResponse)
    (api : DraftApi) (docid : Json) :
    Except PyErr BaseDraftObj × List HttpRequest :=
  let r := DraftDocument._get_document server api docid
  match r.1 with
  | Except.ok data => (Except.ok { api := api, _data := data }, r.2)
  | Except.error e => (Except.error e, r.2)

/-- `DraftApi.document` (src/draftin.py lines 102-107). -/
def DraftApi.document (api : DraftApi) (server : HttpRequest → HttpResponse)
    (docid : Json) : Except PyErr BaseDraftObj × List HttpRequest :=
  DraftDocument.from_id server api docid

/-- `DraftApi.documents` (src/draftin.py lines 95-100): list documents and
wrap each returned element as a `DraftDocument` with it as backing data. -/
def DraftApi.documents (api : DraftApi) (server : HttpRequest → HttpResponse) :
    Except PyErr (List BaseDraftObj) × List HttpRequest :=
  let r := DraftApi.request api server "get" "documents.json" none
  match r.1 with
  | Except.error e => (Except.error e, r.2)
  | Except.ok v =>
    match pyIter v with
    | Except.ok items =>
      (Except.ok (items.map (fun d => { api := api, _data := some d })), r.2)
    | Except.error e => (Except.error e, r.2)

/-- `DraftDocument.refresh` (src/draftin.py lines 203-209): no-op when
`objid()` is falsy (`if not self.objid(): return`); else fetch through
`_get_document` with `self.id` and replace the backing data with the
decoded response. The returned object is the post-call state of `self`. -/
def DraftDocument.refresh (server : HttpRequest → HttpResponse)
    (doc : BaseDraftObj) :
    Except PyErr Unit × BaseDraftObj × List HttpRequest :=
  match BaseDraftObj.objid doc with
  | none => (Except.ok (), doc, [])
  | some idv =>
    if !pyTruthy idv then (Except.ok (), doc, [])
    else
      let r := DraftDocument._get_document server doc.api idv
      match r.1 with
      | Except.ok data => (Except.ok (), BaseDraftObj.set_data doc data, r.2)
      | Except.error e => (Except.error e, doc, r.2)

/-- `DraftDocument._createdoc` (src/draftin.py lines 211-218):
`POST documents.json` with the serialized args dict; the decoded response
becomes the new backing data. On an exception the backing data is left
untouched (`set_data` is never reached). -/
def DraftDocument._createdoc (server : HttpRequest → HttpResponse)
    (doc : BaseDraftObj) (content : String) (name : Option String) :
    Except PyErr Unit × BaseDraftObj × List HttpRequest :=
  let r := DraftApi.request doc.api server "post" "documents.json"
    (some (Json.dumps (Json.obj (mkDocArgs content name))))
  match r.1 with
  | Except.ok data => (Except.ok (), BaseDraftObj.set_data doc data, r.2)
  | Except.error e => (Except.error e, doc, r.2)

/-- `DraftDocument.update` (src/draftin.py lines 220-233): when `objid()`
is falsy, delegate to `_createdoc`; otherwise `PUT documents/{id}.json`
with the serialized args and then `refresh()` (whose decoded GET response
replaces the backing data — the PUT response body is discarded). -/
def DraftDocument.update (server : HttpRequest → HttpResponse)
    (doc : BaseDraftObj) (content : String) (name : Option String) :
    Except PyErr Unit × BaseDraftObj × List HttpRequest :=
  match BaseDraftObj.objid doc with
  | none => DraftDocument._createdoc server doc content name
  | some idv =>
    if !pyTruthy idv then DraftDocument._createdoc server doc content name
    else
      let r := DraftApi.request doc.api server "put"
        ("documents/" ++ pyStr idv ++ ".json")
        (some (Json.dumps (Json.obj (mkDocArgs content name))))
      match r.1 with
      | Except.error e => (Except.error e, doc, r.2)
      | Except.ok _ =>
        let rr := DraftDocument.refresh server doc
        (rr.1, rr.2.1, r.2 ++ rr.2.2)

/-- `DraftApi.create` (src/draftin.py lines 109-116): construct an empty
document and `update` it (which routes to the create path). -/
def DraftApi.create (api : DraftApi) (server : HttpRequest → HttpResponse)
    (content : String) (name : Option String) :
    Except PyErr BaseDraftObj × List HttpRequest :=
  let doc : BaseDraftObj := { api := api, _data := none }
  let r := DraftDocument.update server doc content name
  match r.1 with
  | Except.ok _ => (Except.ok r.2.1, r.2.2)
  | Except.error e => (Except.error e, r.2.2)

/-- `DraftDocument.delete` (src/draftin.py lines 235-243): no-op when
`objid()` is falsy; else `DELETE documents/{id}.json`. The local object is
never modified (the source's `FIXME: clear dict?` is not implemented) and
the request's return value is discarded. -/
def DraftDocument.delete (server : HttpRequest → HttpResponse)
    (doc : BaseDraftObj) :
    Except PyErr Unit × BaseDraftObj × List HttpRequest :=
  match BaseDraftObj.objid doc with
  | none => (Except.ok (), doc, [])
  | some idv =>
    if !pyTruthy idv then (Except.ok (), doc, [])
    else
      let r := DraftApi.request doc.api server "delete"
        ("documents/" ++ pyStr idv ++ ".json") none
      match r.1 with
      | Except.ok _ => (Except.ok (), doc, r.2)
      | Except.error e => (Except.error e, doc, r.2)

/-- `DraftDocument.savepoints` (src/draftin.py lines 245-253): empty list
when `objid()` is falsy; else `GET documents/{id}/savepoints.json` and wrap
each element of the decoded response as a `DraftSavePoint`. -/
def DraftDocument.savepoints (server : HttpRequest → HttpResponse)
    (doc : BaseDraftObj) :
    Except PyErr (List BaseDraftObj) × List HttpRequest :=
  match BaseDraftObj.objid doc with
  | none => (Except.ok [], [])
  | some idv =>
    if !pyTruthy idv then (Except.ok [], [])
    else
      let r := DraftApi.request doc.api server "get"
        ("documents/" ++ pyStr idv ++ "/savepoints.json") none
      match r.1 with
      | Except.error e => (Except.error e, r.2)
      | Except.ok v =>
        match pyIter v with
        | Except.ok items =>
          (Except.ok (items.map (fun d => { api := doc.api, _data := some d })), r.2)
        | Except.error e => (Except.error e, r.2)

/-- `DraftDocument.createsave` (src/draftin.py lines 255-263): `None` when
`objid()` is falsy; else `POST documents/{id}/savepoints.json` — the
method name is written `'POST'` in upper case at this one call site — and
the raw decoded response is returned unwrapped. -/
def DraftDocument.createsave (server : HttpRequest → HttpResponse)
    (doc : BaseDraftObj) :
    Except PyErr (Option Json) × List HttpRequest :=
  match BaseDraftObj.objid doc with
  | none => (Except.ok none, [])
  | some idv =>
    if !pyTruthy idv then (Except.ok none, [])
    else
      DraftApi.request doc.api server "POST"
        ("documents/" ++ pyStr idv ++ "/savepoints.json") none

/-- `DraftSavePoint.delete` (src/draftin.py lines 174-176):
`DELETE savepoints/{id}.json`, no unsaved guard; the raw decoded response
is returned. -/
def DraftSavePoint.delete (server : HttpRequest → HttpResponse)
    (sp : BaseDraftObj) : Except PyErr (Option Json) × List HttpRequest :=
  match BaseDraftObj.objid sp with
  | some idv =>
    DraftApi.request sp.api server "delete"
      ("savepoints/" ++ pyStr idv ++ ".json") none
  | none =>
    DraftApi.request sp.api server "delete"
      ("savepoints/" ++ pyStr Json.null ++ ".json") none

/-- `DraftSavePoint.from_id` (src/draftin.py lines 178-182). -/
def DraftSavePoint.from_id (server : HttpRequest → HttpResponse)
    (api : DraftApi) (saveid : Json) :
    Except PyErr BaseDraftObj × List HttpRequest :=
  let r := DraftApi.request api server "get"
    ("savepoints/" ++ pyStr saveid ++ ".json") none
  match r.1 with
  | Except.ok data => (Except.ok { api := api, _data := data }, r.2)
  | Except.error e => (Except.error e, r.2)

/-! ## Helper lemmas and concrete fixtures -/

/-- `Char.ofNat` on a shifted upper-case ASCII code point keeps its value. -/
theorem charLower_toNat (c : Char) (h : 65 ≤ c.toNat ∧ c.toNat ≤ 90) :
    (Char.ofNat (c.toNat + 32)).toNat = c.toNat + 32 := by
  have hv : (c.toNat + 32).isValidChar := Or.inl (by omega)
  rw [Char.ofNat, dif_pos hv]
  rfl

/-- ASCII lower-casing is idempotent on characters. -/
theorem charLower_idem (c : Char) : charLower (charLower c) = charLower c := by
  by_cases h : 65 ≤ c.toNat ∧ c.toNat ≤ 90
  · have h1 : charLower c = Char.ofNat (c.toNat + 32) := by
      unfold charLower; exact if_pos h
    have h2 : (Char.ofNat (c.toNat + 32)).toNat = c.toNat + 32 :=
      charLower_toNat c h
    rw [h1]
    unfold charLower
    rw [if_neg (by omega)]
  · unfold charLower
    rw [if_neg h, if_neg h]

/-- `str.lower` is idempotent. -/
theorem strToLower_idem (s : String) : strToLower (strToLower s) = strToLower s := by
  unfold strToLower
  show String.mk ((s.data.map charLower).map charLower) =
    String.mk (s.data.map charLower)
  rw [List.map_map]
  congr 1
  apply List.map_congr_left
  intro c _
  exact charLower_idem c

/-- Response fixture: HTTP 200 with a JSON document body. -/
def respOk200 : HttpResponse :=
  { status_code := 200, contentType := some "application/json",
    text := "x",
    json := Except.ok (Json.obj [("id", Json.num 7), ("content", Json.str "body")]) }

/-- Server fixture: every request succeeds with HTTP 200 and a JSON
document body. -/
def jsonOkServer : HttpRequest → HttpResponse := fun _ => respOk200

/-- Response fixture: HTTP 404 with a JSON error body. -/
def resp404 : HttpResponse :=
  { status_code := 404, contentType := some "application/json",
    text := "e",
    json := Except.ok (Json.obj [("error", Json.str "Not found")]) }

/-- Response fixture: HTTP 404 declaring JSON but with an unparseable
body. -/
def respBadJson : HttpResponse :=
  { status_code := 404, contentType := some "application/json",
    text := "<html>gone</html>", json := Except.error () }

/-- Response fixture: HTTP 204 without a body. -/
def resp204 : HttpResponse :=
  { status_code := 204, contentType := some "application/json",
    text := "", json := Except.error () }

/-- Server fixture: every request yields 204 No Content. -/
def noContentServer : HttpRequest → HttpResponse := fun _ => resp204

/-- Response fixture: HTTP 500 with no content type. -/
def resp500 : HttpResponse :=
  { status_code := 500, contentType := none, text := "boom",
    json := Except.error () }

/-- Server fixture: every request fails with HTTP 500 and no content
type. -/
def err500Server : HttpRequest → HttpResponse := fun _ => resp500

/-- Client fixture used by the concrete evaluations. -/
def api0 : DraftApi := DraftApi.init "user" "pass"

/-- Document fixture whose backing data carries the falsy id `0`. -/
def falsyIdDoc : BaseDraftObj :=
  { api := api0, _data := some (Json.obj [("id", Json.num 0)]) }

/-- Document fixture: a persisted document with id `7`. -/
def docId7 : BaseDraftObj :=
  { api := api0,
    _data := some (Json.obj [("id", Json.num 7), ("content", Json.str "old")]) }

/-! ## Claim theorems -/

/-- Claim C1 (code bug evidence): fetching document 144732 issues a GET
whose URL is `https://draftin.com/documents/144732.json` — the leading
slash in `_get_document`'s path makes `urljoin` drop the `/api/v1/` base —
and not the claimed resolution of `documents/144732.json` against
`DRAFT_API_URL`, which would be
`https://draftin.com/api/v1/documents/144732.json`. The other half of the
claim does hold: on success the decoded response becomes the backing
data. -/
theorem c1_get_document_url_bug :
    (DraftDocument.from_id jsonOkServer api0 (Json.num 144732)).2.map
        HttpRequest.url = ["https://draftin.com/documents/144732.json"] ∧
    urljoin DRAFT_API_URL ("documents/" ++ pyStr (Json.num 144732) ++ ".json") =
      "https://draftin.com/api/v1/documents/144732.json" ∧
    (DraftDocument.from_id jsonOkServer api0 (Json.num 144732)).2.map
        HttpRequest.url ≠
      [urljoin DRAFT_API_URL ("documents/" ++ pyStr (Json.num 144732) ++ ".json")] ∧
    (DraftDocument.from_id jsonOkServer api0 (Json.num 144732)).1 =
      Except.ok (BaseDraftObj.mk api0
        (some (Json.obj [("id", Json.num 7), ("content", Json.str "body")]))) := by
  refine ⟨rfl, rfl, by decide, rfl⟩

/-- Claim C2 (code bug evidence): on backing data where `created_at` and
`updated_at` differ, `updated()` returns the parsed `created_at` value and
`created()` the parsed `updated_at` value — the opposite of the claim (and
of the methods' own docstrings). -/
theorem c2_timestamp_fields_swapped :
    BaseDraftObj.updated (BaseDraftObj.mk api0 (some (Json.obj
        [("created_at", Json.str "2011-01-01T00:00:00Z"),
         ("updated_at", Json.str "2012-02-02T00:00:00Z")]))) =
      Except.ok (some (dateparse "2011-01-01T00:00:00Z")) ∧
    BaseDraftObj.created (BaseDraftObj.mk api0 (some (Json.obj
        [("created_at", Json.str "2011-01-01T00:00:00Z"),
         ("updated_at", Json.str "2012-02-02T00:00:00Z")]))) =
      Except.ok (some (dateparse "2012-02-02T00:00:00Z")) ∧
    dateparse "2011-01-01T00:00:00Z" ≠ dateparse "2012-02-02T00:00:00Z" := by
  refine ⟨rfl, rfl, by decide⟩

/-- Shared lemma: `DraftApi.request` lower-cases the method name before
doing anything else, so pre-lowering the argument changes nothing. -/
theorem request_method_lower (api : DraftApi)
    (server : HttpRequest → HttpResponse) (typ path : String)
    (data : Option String) :
    DraftApi.request api server typ path data =
      DraftApi.request api server (strToLower typ) path data := by
  simp only [DraftApi.request, strToLower_idem]

/-- Claim C10: `DraftApi.request` lower-cases the method name first, so
`request(m, ...)` and `request(lowercase(m), ...)` are indistinguishable
for every method string, path and body; consequently `createsave`'s
`'POST'` call site behaves exactly as a lower-case `'post'` request to the
same savepoints path. -/
theorem c10_method_case_insensitive (api : DraftApi)
    (server : HttpRequest → HttpResponse) (typ path : String)
    (data : Option String) :
    DraftApi.request api server typ path data =
      DraftApi.request api server (strToLower typ) path data ∧
    ∀ doc : BaseDraftObj, DraftDocument.createsave server doc =
      (match BaseDraftObj.objid doc with
       | none => (Except.ok none, [])
       | some idv =>
         if !pyTruthy idv then (Except.ok none, [])
         else DraftApi.request doc.api server "post"
           ("documents/" ++ pyStr idv ++ "/savepoints.json") none) := by
  refine ⟨request_method_lower api server typ path data, ?_⟩
  intro doc
  unfold DraftDocument.createsave
  rcases hx : BaseDraftObj.objid doc with _ | idv
  · rfl
  · cases ht : pyTruthy idv
    · simp [ht]
    · simp only [ht, Bool.not_true, Bool.false_eq_true, if_false]
      exact request_method_lower doc.api server "POST"
        ("documents/" ++ pyStr idv ++ "/savepoints.json") none

/-- Claim C3 counterexample: a document whose backing data carries the
falsy id `0` has `objid()` present, yet `update` routes to the create path
(`POST documents.json`) instead of the claimed `PUT documents/0.json`
followed by a fetch — the code guards with Python truthiness
(`if not self.objid()`), not with presence. -/
theorem c3_counterexample_falsy_id :
    BaseDraftObj.objid falsyIdDoc = some (Json.num 0) ∧
    (DraftDocument.update jsonOkServer falsyIdDoc "new content" none).2.2.map
        (fun r => (r.method, r.url)) =
      [("post", "https://draftin.com/api/v1/documents.json")] := by
  exact ⟨rfl, rfl⟩

/-- Claim C3 (amended): `update(content, name?)` routes on the truthiness
of `objid()`: when it is absent or falsy it performs the create —
one `POST documents.json` with the serialized `{content, name?}` body,
whose decoded response becomes the new backing data; when the id is
present and truthy it issues `PUT documents/{id}.json` with that body and
then the fresh fetch of the same id (the GET that `_get_document` issues),
whose decoded response replaces the backing data — the PUT response body
is discarded, only its success is used. -/
theorem c3_update_routing (server : HttpRequest → HttpResponse)
    (doc : BaseDraftObj) (content : String) (name : Option String) :
    (pyTruthyOpt (BaseDraftObj.objid doc) = false →
      DraftDocument.update server doc content name =
        (let r := DraftApi.request doc.api server "post" "documents.json"
            (some (Json.dumps (Json.obj (mkDocArgs content name))))
         match r.1 with
         | Except.ok data => (Except.ok (), BaseDraftObj.set_data doc data, r.2)
         | Except.error e => (Except.error e, doc, r.2))) ∧
    (∀ idv, BaseDraftObj.objid doc = some idv → pyTruthy idv = true →
      DraftDocument.update server doc content name =
        (let r := DraftApi.request doc.api server "put"
            ("documents/" ++ pyStr idv ++ ".json")
            (some (Json.dumps (Json.obj (mkDocArgs content name))))
         match r.1 with
         | Except.error e => (Except.error e, doc, r.2)
         | Except.ok _ =>
           let g := DraftApi.request doc.api server "get"
              ("/documents/" ++ pyStr idv ++ ".json") none
           match g.1 with
         | Except.ok data =>
             (Except.ok (), BaseDraftObj.set_data doc data, r.2 ++ g.2)
           | Except.error e => (Except.error e, doc, r.2 ++ g.2))) := by
  constructor
  · intro h
    unfold DraftDocument.update
    rcases hx : BaseDraftObj.objid doc with _ | idv
    · rfl
    · rw [hx] at h
      simp only [pyTruthyOpt] at h
      simp only [h, Bool.not_false, if_true]
      rfl
  · intro idv hx ht
    unfold DraftDocument.update
    rw [hx]
    simp only [ht, Bool.not_true, Bool.false_eq_true, if_false]
    unfold DraftDocument.refresh
    rw [hx]
    simp only [ht, Bool.not_true, Bool.false_eq_true, if_false]
    cases hr : (DraftApi.request doc.api server "put"
        ("documents/" ++ pyStr idv ++ ".json")
        (some (Json.dumps (Json.obj (mkDocArgs content name))))).1
    · rfl
    · unfold DraftDocument._get_document
      cases hg : (DraftApi.request doc.api server "get"
          ("/documents/" ++ pyStr idv ++ ".json") none).1
      · rfl
      · rfl

/-- Witness for C3: the create route at an unsaved document and the
PUT-then-fetch route at the persisted document with id 7, both against the
always-200 server. -/
theorem c3_update_routing_witness :
    (DraftDocument.update jsonOkServer (BaseDraftObj.mk api0 none) "hello" (some "nm") =
      (let r := DraftApi.request api0 jsonOkServer "post" "documents.json"
          (some (Json.dumps (Json.obj (mkDocArgs "hello" (some "nm")))))
       match r.1 with
       | Except.ok data =>
         (Except.ok (), BaseDraftObj.set_data (BaseDraftObj.mk api0 none) data, r.2)
       | Except.error e => (Except.error e, BaseDraftObj.mk api0 none, r.2))) ∧
    (DraftDocument.update jsonOkServer docId7 "hello" none =
      (let r := DraftApi.request api0 jsonOkServer "put"
          ("documents/" ++ pyStr (Json.num 7) ++ ".json")
          (some (Json.dumps (Json.obj (mkDocArgs "hello" none))))
       match r.1 with
       | Except.error e => (Except.error e, docId7, r.2)
       | Except.ok _ =>
         let g := DraftApi.request api0 jsonOkServer "get"
            ("/documents/" ++ pyStr (Json.num 7) ++ ".json") none
         match g.1 with
         | Except.ok data =>
           (Except.ok (), BaseDraftObj.set_data docId7 data, r.2 ++ g.2)
         | Except.error e => (Except.error e, docId7, r.2 ++ g.2))) :=
  ⟨(c3_update_routing jsonOkServer (BaseDraftObj.mk api0 none) "hello" (some "nm")).1 rfl,
   (c3_update_routing jsonOkServer docId7 "hello" none).2 (Json.num 7) rfl rfl⟩

/-- Shared lemma: every `DraftApi.request` invocation issues exactly one
request — the built one — when the method name is known, and none
otherwise. -/
theorem request_trace (api : DraftApi) (server : HttpRequest → HttpResponse)
    (typ path : String) (data : Option String) :
    (DraftApi.request api server typ path data).2 =
      (if requestsHasMethod (strToLower typ) then
        [DraftApi.buildRequest api (strToLower typ) path data]
      else []) := by
  unfold DraftApi.request
  by_cases hm : requestsHasMethod (strToLower typ) = true
  · simp only [hm, if_true]
  · simp [hm]

/-- Shared lemma: for a known method, the result of `DraftApi.request` is
the decoded response of the one built request. -/
theorem request_result (api : DraftApi) (server : HttpRequest → HttpResponse)
    (typ path : String) (data : Option String)
    (hm : requestsHasMethod (strToLower typ) = true) :
    (DraftApi.request api server typ path data).1 =
      DraftApi.decodeResponse
        (server (DraftApi.buildRequest api (strToLower typ) path data)) := by
  unfold DraftApi.request
  simp only [hm, if_true]

/-- Claim C8 counterexample: the document with the falsy id `0` has
`objid()` present, yet `delete()`, `savepoints()` and `createsave()` all
take their unsaved no-op path and issue no request — the guards test
Python truthiness, not presence. -/
theorem c8_counterexample_falsy_id :
    BaseDraftObj.objid falsyIdDoc = some (Json.num 0) ∧
    DraftDocument.delete jsonOkServer falsyIdDoc = (Except.ok (), falsyIdDoc, []) ∧
    DraftDocument.savepoints jsonOkServer falsyIdDoc = (Except.ok [], []) ∧
    DraftDocument.createsave jsonOkServer falsyIdDoc = (Except.ok none, []) := by
  exact ⟨rfl, rfl, rfl, rfl⟩

/-- Claim C8 (amended): when `objid()` is absent or falsy, `delete()`
returns leaving the object as is, `savepoints()` returns the empty
sequence and `createsave()` returns `None`, all without issuing any
request; when `objid()` is present and truthy each issues exactly its one
documented request (`DELETE documents/{id}.json`,
`GET documents/{id}/savepoints.json`,
`POST documents/{id}/savepoints.json`). -/
theorem c8_unsaved_guard_routing (server : HttpRequest → HttpResponse)
    (doc : BaseDraftObj) :
    (pyTruthyOpt (BaseDraftObj.objid doc) = false →
      DraftDocument.delete server doc = (Except.ok (), doc, []) ∧
      DraftDocument.savepoints server doc = (Except.ok [], []) ∧
      DraftDocument.createsave server doc = (Except.ok none, [])) ∧
    (∀ idv, BaseDraftObj.objid doc = some idv → pyTruthy idv = true →
      (DraftDocument.delete server doc).2.2 =
        [DraftApi.buildRequest doc.api "delete"
          ("documents/" ++ pyStr idv ++ ".json") none] ∧
      (DraftDocument.savepoints server doc).2 =
        [DraftApi.buildRequest doc.api "get"
          ("documents/" ++ pyStr idv ++ "/savepoints.json") none] ∧
      (DraftDocument.createsave server doc).2 =
        [DraftApi.buildRequest doc.api "post"
          ("documents/" ++ pyStr idv ++ "/savepoints.json") none]) := by
  constructor
  · intro h
    unfold DraftDocument.delete DraftDocument.savepoints DraftDocument.createsave
    rcases hx : BaseDraftObj.objid doc with _ | idv
    · exact ⟨rfl, rfl, rfl⟩
    · rw [hx] at h
      simp only [pyTruthyOpt] at h
      simp only [h, Bool.not_false, if_true]
      exact ⟨trivial, trivial, trivial⟩
  · intro idv hx ht
    unfold DraftDocument.delete DraftDocument.savepoints DraftDocument.createsave
    rw [hx]
    simp only [ht, Bool.not_true, Bool.false_eq_true, if_false]
    refine ⟨?_, ?_, ?_⟩
    · cases hr : (DraftApi.request doc.api server "delete"
          ("documents/" ++ pyStr idv ++ ".json") none).1 with
      | error e => rw [request_trace]; rfl
      | ok v => rw [request_trace]; rfl
    · cases hr : (DraftApi.request doc.api server "get"
          ("documents/" ++ pyStr idv ++ "/savepoints.json") none).1 with
      | error e => rw [request_trace]; rfl
      | ok v =>
        simp only []
        cases hv : pyIter v with
        | ok items => rw [request_trace]; rfl
        | error e => rw [request_trace]; rfl
    · rw [request_trace]
      rfl

/-- Witness for C8: the unsaved no-op conjuncts at an empty document and
the one-documented-request conjuncts at the persisted document with
id 7. -/
theorem c8_unsaved_guard_routing_witness :
    (DraftDocument.delete jsonOkServer (BaseDraftObj.mk api0 none) =
        (Except.ok (), BaseDraftObj.mk api0 none, []) ∧
      DraftDocument.savepoints jsonOkServer (BaseDraftObj.mk api0 none) =
        (Except.ok [], []) ∧
      DraftDocument.createsave jsonOkServer (BaseDraftObj.mk api0 none) =
        (Except.ok none, [])) ∧
    ((DraftDocument.delete jsonOkServer docId7).2.2 =
        [DraftApi.buildRequest api0 "delete"
          ("documents/" ++ pyStr (Json.num 7) ++ ".json") none] ∧
      (DraftDocument.savepoints jsonOkServer docId7).2 =
        [DraftApi.buildRequest api0 "get"
          ("documents/" ++ pyStr (Json.num 7) ++ "/savepoints.json") none] ∧
      (DraftDocument.createsave jsonOkServer docId7).2 =
        [DraftApi.buildRequest api0 "post"
          ("documents/" ++ pyStr (Json.num 7) ++ "/savepoints.json") none]) :=
  ⟨(c8_unsaved_guard_routing jsonOkServer (BaseDraftObj.mk api0 none)).1 rfl,
   (c8_unsaved_guard_routing jsonOkServer docId7).2 (Json.num 7) rfl rfl⟩

/-- Shared lemma: the args dict built with an empty-string name equals the
one built with no name at all — `if name:` drops empty strings. -/
theorem mkDocArgs_empty_name (content : String) :
    mkDocArgs content (some "") = mkDocArgs content none := by
  simp [mkDocArgs]

/-- Claim C9: an empty-string `name` argument is dropped by the truthiness
test `if name:` exactly like an omitted name — the serialized request args
carry only the `content` key, and `_createdoc`, `update` and the
client-level `create` behave identically under `name=''` and
`name=None`. -/
theorem c9_empty_name_is_omitted (server : HttpRequest → HttpResponse)
    (api : DraftApi) (doc : BaseDraftObj) (content : String) :
    mkDocArgs content (some "") = [("content", Json.str content)] ∧
    DraftDocument._createdoc server doc content (some "") =
      DraftDocument._createdoc server doc content none ∧
    DraftDocument.update server doc content (some "") =
      DraftDocument.update server doc content none ∧
    DraftApi.create api server content (some "") =
      DraftApi.create api server content none := by
  refine ⟨by simp [mkDocArgs], ?_, ?_, ?_⟩
  · unfold DraftDocument._createdoc
    rw [mkDocArgs_empty_name]
  · unfold DraftDocument.update DraftDocument._createdoc
    rw [mkDocArgs_empty_name]
  · unfold DraftApi.create DraftDocument.update DraftDocument._createdoc
    rw [mkDocArgs_empty_name]

/-- Claim C6: an update, create or delete whose request chain raises leaves
the entity's backing data exactly as it was — the only `set_data` calls
sit after the successful decode of a response, and `delete` never touches
the state at all (proved for every raised exception, in particular the
remote API error). -/
theorem c6_failed_mutation_preserves_data (server : HttpRequest → HttpResponse)
    (doc : BaseDraftObj) (content : String) (name : Option String) :
    (∀ e, (DraftDocument.update server doc content name).1 = Except.error e →
      (DraftDocument.update server doc content name).2.1 = doc) ∧
    (∀ e, (DraftDocument._createdoc server doc content name).1 = Except.error e →
      (DraftDocument._createdoc server doc content name).2.1 = doc) ∧
    (DraftDocument.delete server doc).2.1 = doc := by
  have hcreate : ∀ e,
      (DraftDocument._createdoc server doc content name).1 = Except.error e →
      (DraftDocument._createdoc server doc content name).2.1 = doc := by
    intro e he
    unfold DraftDocument._createdoc at he ⊢
    simp only [] at he ⊢
    cases hr : (DraftApi.request doc.api server "post" "documents.json"
        (some (Json.dumps (Json.obj (mkDocArgs content name))))).1 with
    | error e2 => rfl
    | ok data => rw [hr] at he; simp at he
  refine ⟨?_, hcreate, ?_⟩
  · unfold DraftDocument.update
    rcases hx : BaseDraftObj.objid doc with _ | idv
    · exact hcreate
    · by_cases ht : pyTruthy idv
      · intro e he
        simp only [ht, Bool.not_true, Bool.false_eq_true, if_false] at he ⊢
        cases hr : (DraftApi.request doc.api server "put"
            ("documents/" ++ pyStr idv ++ ".json")
            (some (Json.dumps (Json.obj (mkDocArgs content name))))).1 with
        | error e2 => rfl
        | ok u =>
          rw [hr] at he
          simp only [] at he ⊢
          unfold DraftDocument.refresh at he ⊢
          rw [hx] at he ⊢
          simp only [ht, Bool.not_true, Bool.false_eq_true, if_false] at he ⊢
          unfold DraftDocument._get_document at he ⊢
          cases hg : (DraftApi.request doc.api server "get"
              ("/documents/" ++ pyStr idv ++ ".json") none).1 with
          | error e3 => rfl
          | ok data => rw [hg] at he; simp at he
      · rw [Bool.not_eq_true] at ht
        simp only [ht, Bool.not_false, if_true]
        exact hcreate
  · unfold DraftDocument.delete
    rcases hx : BaseDraftObj.objid doc with _ | idv
    · rfl
    · by_cases ht : pyTruthy idv
      · simp only [ht, Bool.not_true, Bool.false_eq_true, if_false]
        cases hr : (DraftApi.request doc.api server "delete"
            ("documents/" ++ pyStr idv ++ ".json") none).1 with
        | error e2 => rfl
        | ok u => rfl
      · rw [Bool.not_eq_true] at ht
        simp only [ht, Bool.not_false, if_true]

/-- Witness for C6: against the always-500 server, update and create on
the persisted document with id 7 raise the remote API error and leave the
document unchanged, as does delete. -/
theorem c6_failed_mutation_preserves_data_witness :
    (DraftDocument.update err500Server docId7 "hello" none).2.1 = docId7 ∧
    (DraftDocument._createdoc err500Server docId7 "hello" none).2.1 = docId7 ∧
    (DraftDocument.delete err500Server docId7).2.1 = docId7 :=
  ⟨(c6_failed_mutation_preserves_data err500Server docId7 "hello" none).1
      (PyErr.api (DraftApiException.ofResp resp500)) rfl,
   (c6_failed_mutation_preserves_data err500Server docId7 "hello" none).2.1
      (PyErr.api (DraftApiException.ofResp resp500)) rfl,
   (c6_failed_mutation_preserves_data err500Server docId7 "hello" none).2.2⟩

/-- Shared lemma: outside 200-299 the response check fails and the whole
decode raises the `DraftApiException` built from the response. -/
theorem decodeResponse_non2xx (resp : HttpResponse)
    (h : resp.status_code < 200 ∨ 299 < resp.status_code) :
    DraftApi.decodeResponse resp =
      Except.error (PyErr.api (DraftApiException.ofResp resp)) := by
  have hc : (resp.status_code < 200 || resp.status_code > 299) = true := by
    simp only [Bool.or_eq_true, decide_eq_true_eq]
    omega
  unfold DraftApi.decodeResponse DraftApi.check_response
  simp only [hc, if_true]

/-- Shared lemma: inside 200-299 the decode never raises the remote API
error (a malformed JSON body raises a different, non-API exception). -/
theorem decodeResponse_2xx_no_api_error (resp : HttpResponse)
    (h1 : 200 ≤ resp.status_code) (h2 : resp.status_code ≤ 299) :
    ∀ e, DraftApi.decodeResponse resp ≠ Except.error (PyErr.api e) := by
  intro e
  have hc : (resp.status_code < 200 || resp.status_code > 299) = false := by
    simp only [Bool.or_eq_false_iff, decide_eq_false_iff_not]
    omega
  unfold DraftApi.decodeResponse DraftApi.check_response
  simp only [hc, Bool.false_eq_true, if_false]
  split
  · simp
  · split
    · simp
    · cases hj : resp.json <;> simp

/-- Claim C4: for a known method name, `request` raises the remote API
error built from the response exactly when the status code is outside
200-299 — and then returns no value — while on a 2xx status it never
raises the remote API error. -/
theorem c4_api_error_iff_non2xx (api : DraftApi)
    (server : HttpRequest → HttpResponse) (typ path : String)
    (data : Option String) (resp : HttpResponse)
    (hm : requestsHasMethod (strToLower typ) = true)
    (hresp : server (DraftApi.buildRequest api (strToLower typ) path data) = resp) :
    (resp.status_code < 200 ∨ 299 < resp.status_code →
      (DraftApi.request api server typ path data).1 =
        Except.error (PyErr.api (DraftApiException.ofResp resp)) ∧
      ∀ v, (DraftApi.request api server typ path data).1 ≠ Except.ok v) ∧
    (200 ≤ resp.status_code → resp.status_code ≤ 299 →
      ∀ e, (DraftApi.request api server typ path data).1 ≠
        Except.error (PyErr.api e)) := by
  rw [request_result api server typ path data hm, hresp]
  constructor
  · intro hbad
    rw [decodeResponse_non2xx resp hbad]
    exact ⟨rfl, by simp⟩
  · intro h1 h2
    exact decodeResponse_2xx_no_api_error resp h1 h2

/-- Witness for C4: the always-500 server makes `request` raise the API
error and return nothing; the always-200 server never produces an API
error. -/
theorem c4_api_error_iff_non2xx_witness :
    ((DraftApi.request api0 err500Server "get" "documents.json" none).1 =
        Except.error (PyErr.api (DraftApiException.ofResp resp500)) ∧
      ∀ v, (DraftApi.request api0 err500Server "get" "documents.json" none).1 ≠
        Except.ok v) ∧
    (∀ e, (DraftApi.request api0 jsonOkServer "get" "documents.json" none).1 ≠
      Except.error (PyErr.api e)) :=
  ⟨(c4_api_error_iff_non2xx api0 err500Server "get" "documents.json" none
      resp500 rfl rfl).1 (Or.inr (by decide)),
   (c4_api_error_iff_non2xx api0 jsonOkServer "get" "documents.json" none
      respOk200 rfl rfl).2 (by decide) (by decide)⟩

/-- Claim C5: on a successful (2xx) response, `request` returns `None`
when the status is 204, when the content type is not JSON, or when the
body is exactly one space regardless of the declared content type; in
every other successful case it returns the parsed JSON value of the
body. -/
theorem c5_success_decoding (api : DraftApi)
    (server : HttpRequest → HttpResponse) (typ path : String)
    (data : Option String) (resp : HttpResponse)
    (hm : requestsHasMethod (strToLower typ) = true)
    (hresp : server (DraftApi.buildRequest api (strToLower typ) path data) = resp)
    (h1 : 200 ≤ resp.status_code) (h2 : resp.status_code ≤ 299) :
    ((resp.status_code = 204 ∨ ctIsJson resp = false ∨ resp.text = " ") →
      (DraftApi.request api server typ path data).1 = Except.ok none) ∧
    (resp.status_code ≠ 204 → ctIsJson resp = true → resp.text ≠ " " →
      ∀ j, resp.json = Except.ok j →
        (DraftApi.request api server typ path data).1 = Except.ok (some j)) := by
  rw [request_result api server typ path data hm, hresp]
  have hc : (resp.status_code < 200 || resp.status_code > 299) = false := by
    simp only [Bool.or_eq_false_iff, decide_eq_false_iff_not]
    omega
  unfold DraftApi.decodeResponse DraftApi.check_response
  simp only [hc, Bool.false_eq_true, if_false]
  constructor
  · intro hnull
    rcases hnull with h | h | h
    · have hA : (resp.status_code == 204 || !ctIsJson resp) = true := by
        simp [h]
      simp only [hA, if_true]
    · have hA : (resp.status_code == 204 || !ctIsJson resp) = true := by
        simp [h]
      simp only [hA, if_true]
    · by_cases hA : (resp.status_code == 204 || !ctIsJson resp) = true
      · simp only [hA, if_true]
      · simp only [hA, Bool.false_eq_true, if_false]
        have hB : (resp.text == " ") = true := by simp [h]
        simp only [hB, if_true]
  · intro hn204 hjson hnsp j hj
    have hA : (resp.status_code == 204 || !ctIsJson resp) = false := by
      simp [hn204, hjson]
    have hB : (resp.text == " ") = false := by simp [hnsp]
    simp only [hA, hB, Bool.false_eq_true, if_false, hj]

/-- Witness for C5: a 204 response decodes to `None`; a 200 JSON response
decodes to its parsed body. -/
theorem c5_success_decoding_witness :
    (DraftApi.request api0 noContentServer "get" "documents.json" none).1 =
      Except.ok none ∧
    (DraftApi.request api0 jsonOkServer "get" "documents.json" none).1 =
      Except.ok (some (Json.obj [("id", Json.num 7), ("content", Json.str "body")])) :=
  ⟨(c5_success_decoding api0 noContentServer "get" "documents.json" none
      resp204 rfl rfl (by decide) (by decide)).1 (Or.inl rfl),
   (c5_success_decoding api0 jsonOkServer "get" "documents.json" none
      respOk200 rfl rfl (by decide) (by decide)).2 (by decide) rfl (by decide)
      (Json.obj [("id", Json.num 7), ("content", Json.str "body")]) rfl⟩

/-- Claim C7: the exception built from a response exposes `code` equal to
the HTTP status and `response` equal to the raw response; its message is
the `error` field when the content type is JSON and the body parses to an
object carrying that field, the raw body text when the content type is
JSON but parsing fails, and the generic unknown-error message tagged with
the status code when the content type is not JSON. -/
theorem c7_exception_structure (resp : HttpResponse) :
    (DraftApiException.ofResp resp).code = resp.status_code ∧
    (DraftApiException.ofResp resp).response = resp ∧
    (ctIsJson resp = true → ∀ fs v, resp.json = Except.ok (Json.obj fs) →
      pyLookup fs "error" = some v →
      (DraftApiException.ofResp resp).msg = v) ∧
    (ctIsJson resp = true → ∀ u, resp.json = Except.error u →
      (DraftApiException.ofResp resp).msg = Json.str resp.text) ∧
    (ctIsJson resp = false →
      (DraftApiException.ofResp resp).msg =
        Json.str ("Unknown error invoking the Draft API (" ++
          toString resp.status_code ++ ")")) := by
  refine ⟨rfl, rfl, ?_, ?_, ?_⟩
  · intro hct fs v hj hv
    unfold DraftApiException.ofResp
    simp only [hct, if_true, hj, hv]
  · intro hct u hj
    unfold DraftApiException.ofResp
    simp only [hct, if_true, hj]
  · intro hct
    unfold DraftApiException.ofResp
    simp only [hct, Bool.false_eq_true, if_false]

/-- Witness for C7: the 404 JSON error response yields its `error` field,
the unparseable JSON response yields the raw body text, and the
content-type-less 500 yields the generic tagged message. -/
theorem c7_exception_structure_witness :
    (DraftApiException.ofResp resp404).code = resp404.status_code ∧
    (DraftApiException.ofResp resp404).response = resp404 ∧
    (DraftApiException.ofResp resp404).msg = Json.str "Not found" ∧
    (DraftApiException.ofResp respBadJson).msg = Json.str respBadJson.text ∧
    (DraftApiException.ofResp resp500).msg =
      Json.str ("Unknown error invoking the Draft API (" ++
        toString resp500.status_code ++ ")") :=
  ⟨(c7_exception_structure resp404).1,
   (c7_exception_structure resp404).2.1,
   (c7_exception_structure resp404).2.2.1 rfl
     [("error", Json.str "Not found")] (Json.str "Not found") rfl rfl,
   (c7_exception_structure respBadJson).2.2.2.1 rfl () rfl,
   (c7_exception_structure resp500).2.2.2.2 rfl⟩
